import Mathlib

/-!
Shallow embedding of the cost-basis accounting core of the cripto-facil
repository (src/app.py, function show_wallet_details, later revision):
recording Buy/Sell operations with frozen per-operation average cost and
realized profit/loss, deleting operations, and the per-asset portfolio
aggregation. Monetary quantities are rationals; timestamps are integers.
-/

namespace CriptoFacil

/-- Operation kind: the source supports Compra (Buy) and Venda (Sell). -/
inductive TipoOperacao where
  | compra
  | venda
  deriving DecidableEq, Repr

/-- One row of the operations ledger, mirroring the columns written by
show_wallet_details: absent numeric fields (NaN in pandas) are Option.none. -/
structure Operacao where
  id : String
  wallet_id : String
  cpf_usuario : String
  tipo_operacao : TipoOperacao
  cripto : String
  quantidade : ℚ
  custo_total : ℚ
  data_operacao : ℤ
  preco_medio_compra_na_op : Option ℚ
  lucro_prejuizo_na_op : Option ℚ
  ptax_na_op : ℚ
  deriving DecidableEq, Repr

/-- Sum of the quantidade column of a list of operations. -/
def somaQuantidade (ops : List Operacao) : ℚ :=
  (ops.map (fun o => o.quantidade)).sum

/-- Sum of the custo_total column of a list of operations. -/
def somaCustoTotal (ops : List Operacao) : ℚ :=
  (ops.map (fun o => o.custo_total)).sum

/-- The operations of one wallet and one user (the filter applied at the top
of the portfolio section of show_wallet_details). -/
def walletOps (ops : List Operacao) (wallet cpf : String) : List Operacao :=
  ops.filter (fun o => o.wallet_id = wallet ∧ o.cpf_usuario = cpf)

/-- The prior Buy operations consulted when a Sell is recorded: same wallet,
same user, same asset, kind Compra, timestamp at most the timestamp of the
Sell (the compras_anteriores selection in the source). -/
def comprasAnteriores (ops : List Operacao) (wallet cpf cripto : String)
    (t : ℤ) : List Operacao :=
  ops.filter (fun o => o.wallet_id = wallet ∧ o.cpf_usuario = cpf ∧
    o.tipo_operacao = TipoOperacao.compra ∧ o.cripto = cripto ∧
    o.data_operacao ≤ t)

/-- User input of the new-operation form. -/
structure EntradaOperacao where
  tipo_operacao : TipoOperacao
  cripto : String
  quantidade : ℚ
  custo_total_input : ℚ
  ptax_input : ℚ
  data_hora : ℤ
  deriving DecidableEq, Repr

/-- Validation failures of the new-operation form. -/
inductive ErroValidacao where
  | camposInvalidos
  | ptaxInvalida
  deriving DecidableEq, Repr

/-- The consideration stored on the row: for a foreign wallet the input is
converted to BRL through the PTAX rate, otherwise it is stored as given. -/
def custoTotalFinalBrl (isForeign : Bool) (e : EntradaOperacao) : ℚ :=
  if isForeign then e.custo_total_input * e.ptax_input else e.custo_total_input

/-- Recording of one operation (the submitted_op branch of the form in
show_wallet_details). Returns the new ledger together with a flag telling
whether the insufficient-history warning was surfaced, or a validation
error. The row is always appended on success; for a Sell the frozen average
cost is the simple weighted average over all qualifying prior Buys. -/
def registrarOperacao (ops : List Operacao) (wallet cpf : String)
    (isForeign : Bool) (novoId : String) (e : EntradaOperacao) :
    Except ErroValidacao (List Operacao × Bool) :=
  if e.cripto = "" ∨ e.quantidade ≤ 0 ∨ e.custo_total_input ≤ 0 then
    Except.error ErroValidacao.camposInvalidos
  else if isForeign = true ∧ e.ptax_input ≤ 0 then
    Except.error ErroValidacao.ptaxInvalida
  else
    let brl := custoTotalFinalBrl isForeign e
    let base : Operacao :=
      { id := novoId, wallet_id := wallet, cpf_usuario := cpf,
        tipo_operacao := e.tipo_operacao, cripto := e.cripto,
        quantidade := e.quantidade, custo_total := brl,
        data_operacao := e.data_hora,
        preco_medio_compra_na_op := none, lucro_prejuizo_na_op := none,
        ptax_na_op := e.ptax_input }
    match e.tipo_operacao with
    | TipoOperacao.compra =>
        let pm : Option ℚ :=
          if 0 < e.quantidade then some (brl / e.quantidade) else none
        Except.ok (ops ++ [{ base with preco_medio_compra_na_op := pm }], false)
    | TipoOperacao.venda =>
        let compras := comprasAnteriores ops wallet cpf e.cripto e.data_hora
        if compras ≠ [] ∧ 0 < somaQuantidade compras then
          let pm := somaCustoTotal compras / somaQuantidade compras
          Except.ok (ops ++
            [{ base with
                tipo_operacao := TipoOperacao.venda,
                preco_medio_compra_na_op := some pm,
                lucro_prejuizo_na_op := some (brl - e.quantidade * pm) }],
            false)
        else
          Except.ok (ops ++
            [{ base with tipo_operacao := TipoOperacao.venda }], true)

/-- Deletion of one operation by id (the confirmed-delete branch keeps every
row whose id differs). -/
def excluirOperacao (ops : List Operacao) (opId : String) : List Operacao :=
  ops.filter (fun o => o.id ≠ opId)

/-- The rows of one asset (the ops_cripto selection in the aggregation). -/
def opsDaCripto (ops : List Operacao) (simbolo : String) : List Operacao :=
  ops.filter (fun o => o.cripto = simbolo)

/-- Quantity bought: sum of quantidade over Compra rows. -/
def qtdComprada (ops : List Operacao) : ℚ :=
  somaQuantidade (ops.filter (fun o => o.tipo_operacao = TipoOperacao.compra))

/-- Quantity sold: sum of quantidade over Venda rows. -/
def qtdVendida (ops : List Operacao) : ℚ :=
  somaQuantidade (ops.filter (fun o => o.tipo_operacao = TipoOperacao.venda))

/-- Currently held quantity: bought minus sold. -/
def quantidadeAtual (ops : List Operacao) : ℚ :=
  qtdComprada ops - qtdVendida ops

/-- Gross cost of all Buys of the asset. -/
def totalCustoComprado (ops : List Operacao) : ℚ :=
  somaCustoTotal (ops.filter (fun o => o.tipo_operacao = TipoOperacao.compra))

/-- Cost basis removed by Sells: quantidade times the frozen average cost of
each Venda row; a row whose frozen average is absent contributes nothing,
matching the NaN-skipping sum of pandas. -/
def totalCustoBaseVendido (ops : List Operacao) : ℚ :=
  ((ops.filter (fun o => o.tipo_operacao = TipoOperacao.venda)).map
    (fun o => match o.preco_medio_compra_na_op with
      | some pm => o.quantidade * pm
      | none => 0)).sum

/-- Remaining cost basis: gross buy cost minus the cost basis sold. -/
def custoTotalAtualEstimado (ops : List Operacao) : ℚ :=
  totalCustoComprado ops - totalCustoBaseVendido ops

/-- Average cost of the remaining units, zero when nothing is held. -/
def custoMedio (ops : List Operacao) : ℚ :=
  if 0 < quantidadeAtual ops then
    custoTotalAtualEstimado ops / quantidadeAtual ops
  else 0

/-- Realized profit or loss of the asset: sum of lucro_prejuizo_na_op over
Venda rows where that field is present. -/
def lucroRealizadoDaCripto (ops : List Operacao) : ℚ :=
  ((ops.filter (fun o => o.tipo_operacao = TipoOperacao.venda ∧
      o.lucro_prejuizo_na_op.isSome)).map
    (fun o => o.lucro_prejuizo_na_op.getD 0)).sum

/-- One line of the consolidated portfolio of a wallet. -/
structure PosicaoAtivo where
  cripto : String
  quantidade : ℚ
  custo_total : ℚ
  custo_medio : ℚ
  lucro_realizado : ℚ
  deriving DecidableEq, Repr

/-- Accumulator step of first-appearance deduplication: append the symbol
only when it has not been seen yet. -/
def insereUnico (acc : List String) (s : String) : List String :=
  if s ∈ acc then acc else acc ++ [s]

/-- First-appearance deduplication of a list of symbols, the order produced
by pandas unique. -/
def unicos (l : List String) : List String :=
  l.foldl insereUnico []

/-- Distinct asset symbols in first-appearance order (pandas unique). -/
def simbolos (ops : List Operacao) : List String :=
  unicos (ops.map (fun o => o.cripto))

/-- The per-asset portfolio aggregation of show_wallet_details: one position
per distinct symbol whose held quantity is positive. -/
def portfolioDetalhado (ops : List Operacao) : List PosicaoAtivo :=
  (simbolos ops).filterMap (fun s =>
    let oc := opsDaCripto ops s
    if 0 < quantidadeAtual oc then
      some { cripto := s, quantidade := quantidadeAtual oc,
             custo_total := custoTotalAtualEstimado oc,
             custo_medio := custoMedio oc,
             lucro_realizado := lucroRealizadoDaCripto oc }
    else none)

/-- Wallet-level realized profit: sum of lucro_prejuizo_na_op over every
Venda row of the wallet where that field is present, computed from the raw
operation list and not from the aggregated output. -/
def totalLucroRealizado (ops : List Operacao) : ℚ :=
  ((ops.filter (fun o => o.tipo_operacao = TipoOperacao.venda ∧
      o.lucro_prejuizo_na_op.isSome)).map
    (fun o => o.lucro_prejuizo_na_op.getD 0)).sum

/-- Held quantity of one asset inside one wallet of one user. -/
def quantidadeAtualNaCarteira (ops : List Operacao)
    (wallet cpf simbolo : String) : ℚ :=
  quantidadeAtual (opsDaCripto (walletOps ops wallet cpf) simbolo)

/-- Concrete example row: a Buy of 1 BTC for 100 BRL at time 0. -/
def opCompraExemplo : Operacao :=
  { id := "op1", wallet_id := "w", cpf_usuario := "u",
    tipo_operacao := TipoOperacao.compra, cripto := "BTC", quantidade := 1,
    custo_total := 100, data_operacao := 0,
    preco_medio_compra_na_op := some 100, lucro_prejuizo_na_op := none,
    ptax_na_op := 1 }

/-- Concrete example form input: a Sell of 2/5 BTC for 150 BRL at time 1. -/
def entradaVendaExemplo : EntradaOperacao :=
  { tipo_operacao := TipoOperacao.venda, cripto := "BTC", quantidade := 2/5,
    custo_total_input := 150, ptax_input := 1, data_hora := 1 }

/-- Concrete example form input: a break-even Sell of 1 BTC for exactly
100 BRL at time 1, so the proceeds equal the frozen cost basis. -/
def entradaVendaEmpate : EntradaOperacao :=
  { tipo_operacao := TipoOperacao.venda, cripto := "BTC", quantidade := 1,
    custo_total_input := 100, ptax_input := 1, data_hora := 1 }

/-- The row produced by recording entradaVendaEmpate after opCompraExemplo:
average cost 100, realized profit exactly 0. -/
def opVendaEmpate : Operacao :=
  { id := "op3", wallet_id := "w", cpf_usuario := "u",
    tipo_operacao := TipoOperacao.venda, cripto := "BTC", quantidade := 1,
    custo_total := 100, data_operacao := 1,
    preco_medio_compra_na_op := some 100, lucro_prejuizo_na_op := some 0,
    ptax_na_op := 1 }

/-- Concrete example form input for scenario D: a foreign-wallet Buy of
2 units for 100 USDT at PTAX 5. -/
def entradaCompraEstrangeira : EntradaOperacao :=
  { tipo_operacao := TipoOperacao.compra, cripto := "BTC", quantidade := 2,
    custo_total_input := 100, ptax_input := 5, data_hora := 0 }

/-- Concrete example row: a Sell of 1 BTC for 150 BRL with frozen average
cost 100 and realized profit 50, as recorded after opCompraExemplo. -/
def opVendaLucro : Operacao :=
  { id := "op7", wallet_id := "w", cpf_usuario := "u",
    tipo_operacao := TipoOperacao.venda, cripto := "BTC", quantidade := 1,
    custo_total := 150, data_operacao := 1,
    preco_medio_compra_na_op := some 100, lucro_prejuizo_na_op := some 50,
    ptax_na_op := 1 }

/-- Concrete example row: an unbacked Sell of 1 ETH with both frozen
cost-basis fields absent, as recorded with no prior ETH Buy. -/
def opVendaSemLastro : Operacao :=
  { id := "op8", wallet_id := "w", cpf_usuario := "u",
    tipo_operacao := TipoOperacao.venda, cripto := "ETH", quantidade := 1,
    custo_total := 70, data_operacao := 2,
    preco_medio_compra_na_op := none, lucro_prejuizo_na_op := none,
    ptax_na_op := 1 }

/-- The portfolio line produced by aggregating the single example Buy. -/
def posBTCExemplo : PosicaoAtivo :=
  { cripto := "BTC", quantidade := 1, custo_total := 100,
    custo_medio := 100, lucro_realizado := 0 }

/-- Contribution of one row to the realized-profit sum: its
lucro_prejuizo_na_op when the row is a Venda with that field present,
otherwise zero. -/
def contribuicaoLucro (o : Operacao) : ℚ :=
  if o.tipo_operacao = TipoOperacao.venda ∧ o.lucro_prejuizo_na_op.isSome
  then o.lucro_prejuizo_na_op.getD 0 else 0

/-- Helper: appending a Sell row of a wallet, user and asset lowers the held
quantity of that asset in that wallet by exactly the sold quantity. -/
theorem quantidadeAtualNaCarteira_append_venda (ops : List Operacao)
    (wallet cpf : String) (op : Operacao)
    (hw : op.wallet_id = wallet) (hu : op.cpf_usuario = cpf)
    (hv : op.tipo_operacao = TipoOperacao.venda) :
    quantidadeAtualNaCarteira (ops ++ [op]) wallet cpf op.cripto =
      quantidadeAtualNaCarteira ops wallet cpf op.cripto - op.quantidade := by
  simp only [quantidadeAtualNaCarteira, walletOps, opsDaCripto, quantidadeAtual,
    qtdComprada, qtdVendida, somaQuantidade]
  simp [List.filter_append, List.filter_cons, hw, hu, hv]
  ring

/-- Claim C1: the frozen average cost stored on a Sell is the simple weighted
average of all qualifying prior Buys of the same wallet, user and asset with
timestamp at most the timestamp of the Sell: total consideration of those
Buys divided by their total quantity, with no reduction for quantities
consumed by intervening Sells. -/
theorem sell_avg_cost_is_simple_average_of_all_prior_buys
    (ops : List Operacao) (wallet cpf novoId : String) (isForeign : Bool)
    (e : EntradaOperacao)
    (htipo : e.tipo_operacao = TipoOperacao.venda)
    (hcripto : ¬ e.cripto = "")
    (hq : 0 < e.quantidade) (hc : 0 < e.custo_total_input)
    (hptax : isForeign = true → 0 < e.ptax_input)
    (hne : comprasAnteriores ops wallet cpf e.cripto e.data_hora ≠ [])
    (hpos : 0 < somaQuantidade (comprasAnteriores ops wallet cpf e.cripto e.data_hora)) :
    ∃ op : Operacao,
      registrarOperacao ops wallet cpf isForeign novoId e =
        Except.ok (ops ++ [op], false) ∧
      op.preco_medio_compra_na_op =
        some (somaCustoTotal (comprasAnteriores ops wallet cpf e.cripto e.data_hora) /
              somaQuantidade (comprasAnteriores ops wallet cpf e.cripto e.data_hora)) := by
  unfold registrarOperacao
  rw [if_neg, if_neg]
  · simp only [htipo]
    rw [if_pos ⟨hne, hpos⟩]
    exact ⟨_, rfl, rfl⟩
  · rintro ⟨hf, hle⟩
    exact absurd (hptax hf) (not_lt.mpr hle)
  · push_neg
    exact ⟨hcripto, hq, hc⟩

/-- Witness for C1: recording the example Sell after the example Buy stores
the average cost of the single qualifying Buy. -/
theorem sell_avg_cost_is_simple_average_of_all_prior_buys_witness :
    ∃ op : Operacao,
      registrarOperacao [opCompraExemplo] "w" "u" false "op2" entradaVendaExemplo =
        Except.ok ([opCompraExemplo] ++ [op], false) ∧
      op.preco_medio_compra_na_op =
        some (somaCustoTotal (comprasAnteriores [opCompraExemplo] "w" "u"
                entradaVendaExemplo.cripto entradaVendaExemplo.data_hora) /
              somaQuantidade (comprasAnteriores [opCompraExemplo] "w" "u"
                entradaVendaExemplo.cripto entradaVendaExemplo.data_hora)) :=
  sell_avg_cost_is_simple_average_of_all_prior_buys [opCompraExemplo] "w" "u" "op2"
    false entradaVendaExemplo rfl (by decide)
    (by norm_num [entradaVendaExemplo]) (by norm_num [entradaVendaExemplo])
    (by intro h; exact absurd h (by decide))
    (by decide)
    (by norm_num [somaQuantidade, comprasAnteriores, opCompraExemplo, entradaVendaExemplo])

/-- Claim C2 (amended): for a backed Sell the stored realized profit or loss
equals the stored consideration minus quantity times the frozen average
cost; it is positive exactly when the proceeds exceed quantity times the
average cost, negative exactly when the proceeds are below it, and zero at
equality. -/
theorem sell_realized_pl_formula_and_sign
    (ops : List Operacao) (wallet cpf novoId : String) (isForeign : Bool)
    (e : EntradaOperacao)
    (htipo : e.tipo_operacao = TipoOperacao.venda)
    (hcripto : ¬ e.cripto = "")
    (hq : 0 < e.quantidade) (hc : 0 < e.custo_total_input)
    (hptax : isForeign = true → 0 < e.ptax_input)
    (hne : comprasAnteriores ops wallet cpf e.cripto e.data_hora ≠ [])
    (hpos : 0 < somaQuantidade (comprasAnteriores ops wallet cpf e.cripto e.data_hora)) :
    ∃ op : Operacao,
      registrarOperacao ops wallet cpf isForeign novoId e =
        Except.ok (ops ++ [op], false) ∧
      op.lucro_prejuizo_na_op =
        some (op.custo_total - op.quantidade *
          (somaCustoTotal (comprasAnteriores ops wallet cpf e.cripto e.data_hora) /
           somaQuantidade (comprasAnteriores ops wallet cpf e.cripto e.data_hora))) ∧
      (∀ pl : ℚ, op.lucro_prejuizo_na_op = some pl →
        ((0 < pl ↔ op.quantidade *
            (somaCustoTotal (comprasAnteriores ops wallet cpf e.cripto e.data_hora) /
             somaQuantidade (comprasAnteriores ops wallet cpf e.cripto e.data_hora)) <
            op.custo_total) ∧
         (pl < 0 ↔ op.custo_total < op.quantidade *
            (somaCustoTotal (comprasAnteriores ops wallet cpf e.cripto e.data_hora) /
             somaQuantidade (comprasAnteriores ops wallet cpf e.cripto e.data_hora))))) := by
  unfold registrarOperacao
  rw [if_neg, if_neg]
  · simp only [htipo]
    rw [if_pos ⟨hne, hpos⟩]
    refine ⟨_, rfl, rfl, ?_⟩
    intro pl hpl
    rw [Option.some_inj] at hpl
    constructor
    · rw [← hpl]
      exact sub_pos
    · rw [← hpl]
      exact sub_neg
  · rintro ⟨hf, hle⟩
    exact absurd (hptax hf) (not_lt.mpr hle)
  · push_neg
    exact ⟨hcripto, hq, hc⟩

/-- Witness for C2: the example Sell of 2/5 BTC for 150 BRL after a Buy of
1 BTC for 100 BRL satisfies the amended formula and sign characterization. -/
theorem sell_realized_pl_formula_and_sign_witness :
    ∃ op : Operacao,
      registrarOperacao [opCompraExemplo] "w" "u" false "op2" entradaVendaExemplo =
        Except.ok ([opCompraExemplo] ++ [op], false) ∧
      op.lucro_prejuizo_na_op =
        some (op.custo_total - op.quantidade *
          (somaCustoTotal (comprasAnteriores [opCompraExemplo] "w" "u"
              entradaVendaExemplo.cripto entradaVendaExemplo.data_hora) /
           somaQuantidade (comprasAnteriores [opCompraExemplo] "w" "u"
              entradaVendaExemplo.cripto entradaVendaExemplo.data_hora))) ∧
      (∀ pl : ℚ, op.lucro_prejuizo_na_op = some pl →
        ((0 < pl ↔ op.quantidade *
            (somaCustoTotal (comprasAnteriores [opCompraExemplo] "w" "u"
                entradaVendaExemplo.cripto entradaVendaExemplo.data_hora) /
             somaQuantidade (comprasAnteriores [opCompraExemplo] "w" "u"
                entradaVendaExemplo.cripto entradaVendaExemplo.data_hora)) <
            op.custo_total) ∧
         (pl < 0 ↔ op.custo_total < op.quantidade *
            (somaCustoTotal (comprasAnteriores [opCompraExemplo] "w" "u"
                entradaVendaExemplo.cripto entradaVendaExemplo.data_hora) /
             somaQuantidade (comprasAnteriores [opCompraExemplo] "w" "u"
                entradaVendaExemplo.cripto entradaVendaExemplo.data_hora))))) :=
  sell_realized_pl_formula_and_sign [opCompraExemplo] "w" "u" "op2"
    false entradaVendaExemplo rfl (by decide)
    (by norm_num [entradaVendaExemplo]) (by norm_num [entradaVendaExemplo])
    (by intro h; exact absurd h (by decide))
    (by decide)
    (by norm_num [somaQuantidade, comprasAnteriores, opCompraExemplo, entradaVendaExemplo])

/-- Counterexample for C2 as stated: a break-even Sell at exactly the frozen
average cost has proceeds that do not exceed quantity times the average
cost, yet its stored realized result is 0, which is not negative. -/
theorem sell_realized_pl_negative_otherwise_cx :
    registrarOperacao [opCompraExemplo] "w" "u" false "op3" entradaVendaEmpate =
      Except.ok ([opCompraExemplo, opVendaEmpate], false) ∧
    opVendaEmpate.preco_medio_compra_na_op = some 100 ∧
    opVendaEmpate.lucro_prejuizo_na_op = some 0 ∧
    ¬ opVendaEmpate.quantidade * 100 < opVendaEmpate.custo_total ∧
    ¬ ((0 : ℚ) < 0) := by
  refine ⟨?_, rfl, rfl, by norm_num [opVendaEmpate], by norm_num⟩
  norm_num [registrarOperacao, comprasAnteriores, custoTotalFinalBrl,
    somaQuantidade, somaCustoTotal, opCompraExemplo, entradaVendaEmpate,
    opVendaEmpate]
  exact fun h => absurd h (by decide)

/-- Claim C5: a Sell with no qualifying prior Buy (or whose qualifying Buys
have non-positive total quantity) is still appended to the ledger, with both
frozen cost-basis fields absent, and the warning flag is raised instead of a
hard error. -/
theorem unbacked_sell_recorded_with_warning
    (ops : List Operacao) (wallet cpf novoId : String) (isForeign : Bool)
    (e : EntradaOperacao)
    (htipo : e.tipo_operacao = TipoOperacao.venda)
    (hcripto : ¬ e.cripto = "")
    (hq : 0 < e.quantidade) (hc : 0 < e.custo_total_input)
    (hptax : isForeign = true → 0 < e.ptax_input)
    (hnb : ¬ (comprasAnteriores ops wallet cpf e.cripto e.data_hora ≠ [] ∧
          0 < somaQuantidade (comprasAnteriores ops wallet cpf e.cripto e.data_hora))) :
    ∃ op : Operacao,
      registrarOperacao ops wallet cpf isForeign novoId e =
        Except.ok (ops ++ [op], true) ∧
      op.preco_medio_compra_na_op = none ∧
      op.lucro_prejuizo_na_op = none := by
  unfold registrarOperacao
  rw [if_neg, if_neg]
  · simp only [htipo]
    rw [if_neg hnb]
    exact ⟨_, rfl, rfl, rfl⟩
  · rintro ⟨hf, hle⟩
    exact absurd (hptax hf) (not_lt.mpr hle)
  · push_neg
    exact ⟨hcripto, hq, hc⟩

/-- Witness for C5: the example Sell recorded on an empty ledger is appended
with both cost-basis fields absent and the warning raised. -/
theorem unbacked_sell_recorded_with_warning_witness :
    ∃ op : Operacao,
      registrarOperacao [] "w" "u" false "op4" entradaVendaExemplo =
        Except.ok ([] ++ [op], true) ∧
      op.preco_medio_compra_na_op = none ∧
      op.lucro_prejuizo_na_op = none :=
  unbacked_sell_recorded_with_warning [] "w" "u" "op4" false entradaVendaExemplo
    rfl (by decide)
    (by norm_num [entradaVendaExemplo]) (by norm_num [entradaVendaExemplo])
    (by intro h; exact absurd h (by decide))
    (by intro h; exact h.1 (by simp [comprasAnteriores]))

/-- Claim C6: a recorded Buy stores consideration converted to BRL through
the PTAX rate when the wallet is foreign (and unchanged when domestic), and
its frozen average cost is the stored consideration divided by the
quantity. -/
theorem buy_avg_cost_on_stored_brl_consideration
    (ops : List Operacao) (wallet cpf novoId : String) (isForeign : Bool)
    (e : EntradaOperacao)
    (htipo : e.tipo_operacao = TipoOperacao.compra)
    (hcripto : ¬ e.cripto = "")
    (hq : 0 < e.quantidade) (hc : 0 < e.custo_total_input)
    (hptax : isForeign = true → 0 < e.ptax_input) :
    ∃ op : Operacao,
      registrarOperacao ops wallet cpf isForeign novoId e =
        Except.ok (ops ++ [op], false) ∧
      op.custo_total =
        (if isForeign then e.custo_total_input * e.ptax_input
         else e.custo_total_input) ∧
      op.preco_medio_compra_na_op = some (op.custo_total / e.quantidade) ∧
      op.lucro_prejuizo_na_op = none := by
  unfold registrarOperacao
  rw [if_neg, if_neg]
  · simp only [htipo]
    rw [if_pos hq]
    exact ⟨_, rfl, rfl, rfl, rfl⟩
  · rintro ⟨hf, hle⟩
    exact absurd (hptax hf) (not_lt.mpr hle)
  · push_neg
    exact ⟨hcripto, hq, hc⟩

/-- Witness for C6: the foreign-wallet Buy of 100 USDT at PTAX 5 stores the
converted consideration and computes the average cost on it. -/
theorem buy_avg_cost_on_stored_brl_consideration_witness :
    ∃ op : Operacao,
      registrarOperacao [] "w" "u" true "op5" entradaCompraEstrangeira =
        Except.ok ([] ++ [op], false) ∧
      op.custo_total =
        (if true then
          entradaCompraEstrangeira.custo_total_input *
            entradaCompraEstrangeira.ptax_input
         else entradaCompraEstrangeira.custo_total_input) ∧
      op.preco_medio_compra_na_op =
        some (op.custo_total / entradaCompraEstrangeira.quantidade) ∧
      op.lucro_prejuizo_na_op = none :=
  buy_avg_cost_on_stored_brl_consideration [] "w" "u" "op5" true
    entradaCompraEstrangeira rfl (by decide)
    (by norm_num [entradaCompraEstrangeira])
    (by norm_num [entradaCompraEstrangeira])
    (by intro _; norm_num [entradaCompraEstrangeira])

/-- Claim C9: recording a Sell never compares the sold quantity with the
held quantity: with only the form validations satisfied it always succeeds
and appends the row, and the held quantity of the asset in the wallet drops
by exactly the sold quantity, so it can become negative. -/
theorem sell_never_checks_held_quantity
    (ops : List Operacao) (wallet cpf novoId : String) (isForeign : Bool)
    (e : EntradaOperacao)
    (htipo : e.tipo_operacao = TipoOperacao.venda)
    (hcripto : ¬ e.cripto = "")
    (hq : 0 < e.quantidade) (hc : 0 < e.custo_total_input)
    (hptax : isForeign = true → 0 < e.ptax_input) :
    ∃ (op : Operacao) (w : Bool),
      registrarOperacao ops wallet cpf isForeign novoId e =
        Except.ok (ops ++ [op], w) ∧
      quantidadeAtualNaCarteira (ops ++ [op]) wallet cpf e.cripto =
        quantidadeAtualNaCarteira ops wallet cpf e.cripto - e.quantidade := by
  unfold registrarOperacao
  rw [if_neg, if_neg]
  · simp only [htipo]
    by_cases hb : comprasAnteriores ops wallet cpf e.cripto e.data_hora ≠ [] ∧
        0 < somaQuantidade (comprasAnteriores ops wallet cpf e.cripto e.data_hora)
    · rw [if_pos hb]
      exact ⟨_, false, rfl,
        quantidadeAtualNaCarteira_append_venda ops wallet cpf _ rfl rfl rfl⟩
    · rw [if_neg hb]
      exact ⟨_, true, rfl,
        quantidadeAtualNaCarteira_append_venda ops wallet cpf _ rfl rfl rfl⟩
  · rintro ⟨hf, hle⟩
    exact absurd (hptax hf) (not_lt.mpr hle)
  · push_neg
    exact ⟨hcripto, hq, hc⟩

/-- Witness for C9: selling 2/5 BTC on an empty ledger succeeds and leaves
the held quantity at minus the sold quantity. -/
theorem sell_never_checks_held_quantity_witness :
    ∃ (op : Operacao) (w : Bool),
      registrarOperacao [] "w" "u" false "op6" entradaVendaExemplo =
        Except.ok ([] ++ [op], w) ∧
      quantidadeAtualNaCarteira ([] ++ [op]) "w" "u" entradaVendaExemplo.cripto =
        quantidadeAtualNaCarteira [] "w" "u" entradaVendaExemplo.cripto -
          entradaVendaExemplo.quantidade :=
  sell_never_checks_held_quantity [] "w" "u" "op6" false entradaVendaExemplo
    rfl (by decide)
    (by norm_num [entradaVendaExemplo]) (by norm_num [entradaVendaExemplo])
    (by intro h; exact absurd h (by decide))

/-- Helper: membership in one deduplication step. -/
theorem mem_insereUnico (acc : List String) (s x : String) :
    x ∈ insereUnico acc s ↔ x ∈ acc ∨ x = s := by
  unfold insereUnico
  split
  · rename_i h
    constructor
    · exact Or.inl
    · rintro (hx | rfl)
      · exact hx
      · exact h
  · simp

/-- Helper: one deduplication step preserves the no-duplicates invariant. -/
theorem nodup_insereUnico (acc : List String) (s : String) (h : acc.Nodup) :
    (insereUnico acc s).Nodup := by
  unfold insereUnico
  split
  · exact h
  · rename_i hs
    simp [List.nodup_append, h, hs]

/-- Helper: membership in the fold of deduplication steps. -/
theorem mem_foldl_insereUnico (l : List String) :
    ∀ (acc : List String) (x : String),
      x ∈ l.foldl insereUnico acc ↔ x ∈ acc ∨ x ∈ l := by
  induction l with
  | nil => simp
  | cons s t ih =>
    intro acc x
    rw [List.foldl_cons, ih, mem_insereUnico]
    simp
    tauto

/-- Helper: the fold of deduplication steps keeps the list without
duplicates. -/
theorem nodup_foldl_insereUnico (l : List String) :
    ∀ acc : List String, acc.Nodup → (l.foldl insereUnico acc).Nodup := by
  induction l with
  | nil => exact fun acc h => h
  | cons s t ih =>
    intro acc h
    exact ih (insereUnico acc s) (nodup_insereUnico acc s h)

/-- Helper: the symbol list has no duplicates. -/
theorem simbolos_nodup (ops : List Operacao) : (simbolos ops).Nodup :=
  nodup_foldl_insereUnico _ [] List.nodup_nil

/-- Helper: the symbol of every row appears in the symbol list. -/
theorem mem_simbolos (ops : List Operacao) (o : Operacao) (ho : o ∈ ops) :
    o.cripto ∈ simbolos ops := by
  unfold simbolos unicos
  rw [mem_foldl_insereUnico]
  exact Or.inr (List.mem_map.mpr ⟨o, ho, rfl⟩)

/-- Helper: membership characterization of the symbol list. -/
theorem mem_simbolos_iff (ops : List Operacao) (s : String) :
    s ∈ simbolos ops ↔ ∃ o ∈ ops, o.cripto = s := by
  unfold simbolos unicos
  rw [mem_foldl_insereUnico]
  simp [eq_comm]

/-- Claim C4: every line of the aggregated portfolio has positive held
quantity, and an asset whose held quantity is not positive contributes no
line at all. -/
theorem aggregated_positions_have_positive_quantity (ops : List Operacao) :
    (∀ p ∈ portfolioDetalhado ops, 0 < p.quantidade) ∧
    (∀ s : String, quantidadeAtual (opsDaCripto ops s) ≤ 0 →
      ∀ p ∈ portfolioDetalhado ops, p.cripto ≠ s) := by
  constructor
  · intro p hp
    rw [portfolioDetalhado, List.mem_filterMap] at hp
    obtain ⟨s, _, hf⟩ := hp
    dsimp only at hf
    by_cases h : 0 < quantidadeAtual (opsDaCripto ops s)
    · rw [if_pos h] at hf
      obtain rfl := Option.some_inj.mp hf
      exact h
    · rw [if_neg h] at hf
      exact absurd hf (by simp)
  · intro s hle p hp
    rw [portfolioDetalhado, List.mem_filterMap] at hp
    obtain ⟨t, _, hf⟩ := hp
    dsimp only at hf
    by_cases h : 0 < quantidadeAtual (opsDaCripto ops t)
    · rw [if_pos h] at hf
      obtain rfl := Option.some_inj.mp hf
      intro hc
      have hts : t = s := hc
      rw [hts] at h
      exact absurd h (not_lt.mpr hle)
    · rw [if_neg h] at hf
      exact absurd hf (by simp)

/-- Witness for C4: the position aggregated from the single example Buy has
positive held quantity. -/
theorem aggregated_positions_have_positive_quantity_witness :
    0 < posBTCExemplo.quantidade :=
  (aggregated_positions_have_positive_quantity [opCompraExemplo]).1 posBTCExemplo
    (by
      simp [portfolioDetalhado, simbolos, unicos, insereUnico, opsDaCripto,
        quantidadeAtual, qtdComprada, qtdVendida, somaQuantidade,
        totalCustoComprado, totalCustoBaseVendido, custoTotalAtualEstimado,
        custoMedio, lucroRealizadoDaCripto, somaCustoTotal, opCompraExemplo,
        posBTCExemplo])

/-- Claim C3: each aggregated asset carries remaining cost basis equal to
the gross Buy cost minus the cost basis deducted by Sells at their frozen
average cost, and average cost equal to that remaining basis divided by the
held quantity; for an asset with only Buys, the held quantity is the bought
quantity and the remaining basis is the gross Buy cost. -/
theorem aggregation_remaining_cost_basis_and_avg_cost
    (ops : List Operacao) (s : String)
    (hs : s ∈ simbolos ops)
    (hpos : 0 < quantidadeAtual (opsDaCripto ops s)) :
    ({ cripto := s,
       quantidade := quantidadeAtual (opsDaCripto ops s),
       custo_total := totalCustoComprado (opsDaCripto ops s) -
         totalCustoBaseVendido (opsDaCripto ops s),
       custo_medio := (totalCustoComprado (opsDaCripto ops s) -
         totalCustoBaseVendido (opsDaCripto ops s)) /
         quantidadeAtual (opsDaCripto ops s),
       lucro_realizado := lucroRealizadoDaCripto (opsDaCripto ops s) } :
      PosicaoAtivo) ∈ portfolioDetalhado ops ∧
    ((∀ o ∈ opsDaCripto ops s, o.tipo_operacao = TipoOperacao.compra) →
      quantidadeAtual (opsDaCripto ops s) = qtdComprada (opsDaCripto ops s) ∧
      totalCustoComprado (opsDaCripto ops s) -
          totalCustoBaseVendido (opsDaCripto ops s) =
        totalCustoComprado (opsDaCripto ops s)) := by
  constructor
  · rw [portfolioDetalhado, List.mem_filterMap]
    refine ⟨s, hs, ?_⟩
    dsimp only
    rw [if_pos hpos]
    have hm : custoMedio (opsDaCripto ops s) =
        custoTotalAtualEstimado (opsDaCripto ops s) /
          quantidadeAtual (opsDaCripto ops s) := by
      rw [custoMedio, if_pos hpos]
    rw [hm]
    rfl
  · intro hall
    have hv : (opsDaCripto ops s).filter
        (fun o => o.tipo_operacao = TipoOperacao.venda) = [] := by
      rw [List.filter_eq_nil_iff]
      intro o ho
      simp [hall o ho]
    constructor
    · rw [quantidadeAtual, qtdVendida, hv]
      simp [somaQuantidade]
    · rw [totalCustoBaseVendido, hv]
      simp

/-- Witness for C3: aggregating the single example Buy yields the BTC
position with its full cost as remaining basis. -/
theorem aggregation_remaining_cost_basis_and_avg_cost_witness :
    ({ cripto := "BTC",
       quantidade := quantidadeAtual (opsDaCripto [opCompraExemplo] "BTC"),
       custo_total := totalCustoComprado (opsDaCripto [opCompraExemplo] "BTC") -
         totalCustoBaseVendido (opsDaCripto [opCompraExemplo] "BTC"),
       custo_medio := (totalCustoComprado (opsDaCripto [opCompraExemplo] "BTC") -
         totalCustoBaseVendido (opsDaCripto [opCompraExemplo] "BTC")) /
         quantidadeAtual (opsDaCripto [opCompraExemplo] "BTC"),
       lucro_realizado := lucroRealizadoDaCripto (opsDaCripto [opCompraExemplo] "BTC") } :
      PosicaoAtivo) ∈ portfolioDetalhado [opCompraExemplo] ∧
    ((∀ o ∈ opsDaCripto [opCompraExemplo] "BTC",
        o.tipo_operacao = TipoOperacao.compra) →
      quantidadeAtual (opsDaCripto [opCompraExemplo] "BTC") =
        qtdComprada (opsDaCripto [opCompraExemplo] "BTC") ∧
      totalCustoComprado (opsDaCripto [opCompraExemplo] "BTC") -
          totalCustoBaseVendido (opsDaCripto [opCompraExemplo] "BTC") =
        totalCustoComprado (opsDaCripto [opCompraExemplo] "BTC")) :=
  aggregation_remaining_cost_basis_and_avg_cost [opCompraExemplo] "BTC"
    (by simp [simbolos, unicos, insereUnico, opCompraExemplo])
    (by
      simp [quantidadeAtual, opsDaCripto, qtdComprada, qtdVendida,
        somaQuantidade, opCompraExemplo])

/-- Claim C8: deleting an operation whose id occurs exactly once removes
exactly that row and returns every other row unchanged, with all frozen
fields exactly as they were, so nothing is recomputed. -/
theorem delete_removes_exactly_one_and_preserves_others
    (l1 l2 : List Operacao) (op : Operacao)
    (h1 : ∀ o ∈ l1, o.id ≠ op.id) (h2 : ∀ o ∈ l2, o.id ≠ op.id) :
    excluirOperacao (l1 ++ op :: l2) op.id = l1 ++ l2 := by
  unfold excluirOperacao
  rw [List.filter_append, List.filter_cons]
  rw [if_neg (by simp)]
  rw [List.filter_eq_self.mpr (fun o ho => by simpa using h1 o ho),
    List.filter_eq_self.mpr (fun o ho => by simpa using h2 o ho)]

/-- Witness for C8: deleting the example Sell from a two-row ledger keeps
exactly the example Buy. -/
theorem delete_removes_exactly_one_and_preserves_others_witness :
    excluirOperacao ([opCompraExemplo] ++ opVendaLucro :: []) opVendaLucro.id =
      [opCompraExemplo] ++ [] :=
  delete_removes_exactly_one_and_preserves_others [opCompraExemplo] [] opVendaLucro
    (by decide) (by decide)

/-- Claim C10: a Sell whose frozen average cost is absent contributes
nothing to the cost basis sold, is excluded from both realized-profit sums,
and leaves the remaining cost basis unchanged, while still lowering the held
quantity by its full quantity. -/
theorem unbacked_sell_aggregation_contribution
    (l1 l2 : List Operacao) (op : Operacao)
    (hv : op.tipo_operacao = TipoOperacao.venda)
    (hpm : op.preco_medio_compra_na_op = none)
    (hlu : op.lucro_prejuizo_na_op = none) :
    totalCustoBaseVendido (l1 ++ op :: l2) = totalCustoBaseVendido (l1 ++ l2) ∧
    lucroRealizadoDaCripto (l1 ++ op :: l2) = lucroRealizadoDaCripto (l1 ++ l2) ∧
    totalLucroRealizado (l1 ++ op :: l2) = totalLucroRealizado (l1 ++ l2) ∧
    custoTotalAtualEstimado (l1 ++ op :: l2) = custoTotalAtualEstimado (l1 ++ l2) ∧
    quantidadeAtual (l1 ++ op :: l2) = quantidadeAtual (l1 ++ l2) - op.quantidade := by
  have hbase : totalCustoBaseVendido (l1 ++ op :: l2) =
      totalCustoBaseVendido (l1 ++ l2) := by
    simp [totalCustoBaseVendido, List.filter_append, List.filter_cons, hv, hpm]
  have hlucro : lucroRealizadoDaCripto (l1 ++ op :: l2) =
      lucroRealizadoDaCripto (l1 ++ l2) := by
    simp [lucroRealizadoDaCripto, List.filter_append, List.filter_cons, hv, hlu]
  have htot : totalLucroRealizado (l1 ++ op :: l2) =
      totalLucroRealizado (l1 ++ l2) := by
    simp [totalLucroRealizado, List.filter_append, List.filter_cons, hv, hlu]
  have hcomp : totalCustoComprado (l1 ++ op :: l2) =
      totalCustoComprado (l1 ++ l2) := by
    simp [totalCustoComprado, somaCustoTotal, List.filter_append,
      List.filter_cons, hv]
  refine ⟨hbase, hlucro, htot, ?_, ?_⟩
  · rw [custoTotalAtualEstimado, custoTotalAtualEstimado, hbase, hcomp]
  · have hqc : qtdComprada (l1 ++ op :: l2) = qtdComprada (l1 ++ l2) := by
      simp [qtdComprada, somaQuantidade, List.filter_append, List.filter_cons, hv]
    have hqv : qtdVendida (l1 ++ op :: l2) =
        qtdVendida (l1 ++ l2) + op.quantidade := by
      simp [qtdVendida, somaQuantidade, List.filter_append, List.filter_cons, hv]
      ring
    rw [quantidadeAtual, quantidadeAtual, hqc, hqv]
    ring

/-- Witness for C10: inserting the unbacked ETH Sell between the example
rows leaves every cost and profit sum unchanged and lowers the held
quantity by 1. -/
theorem unbacked_sell_aggregation_contribution_witness :
    totalCustoBaseVendido ([opCompraExemplo] ++ opVendaSemLastro :: [opVendaLucro]) =
      totalCustoBaseVendido ([opCompraExemplo] ++ [opVendaLucro]) ∧
    lucroRealizadoDaCripto ([opCompraExemplo] ++ opVendaSemLastro :: [opVendaLucro]) =
      lucroRealizadoDaCripto ([opCompraExemplo] ++ [opVendaLucro]) ∧
    totalLucroRealizado ([opCompraExemplo] ++ opVendaSemLastro :: [opVendaLucro]) =
      totalLucroRealizado ([opCompraExemplo] ++ [opVendaLucro]) ∧
    custoTotalAtualEstimado ([opCompraExemplo] ++ opVendaSemLastro :: [opVendaLucro]) =
      custoTotalAtualEstimado ([opCompraExemplo] ++ [opVendaLucro]) ∧
    quantidadeAtual ([opCompraExemplo] ++ opVendaSemLastro :: [opVendaLucro]) =
      quantidadeAtual ([opCompraExemplo] ++ [opVendaLucro]) -
        opVendaSemLastro.quantidade :=
  unbacked_sell_aggregation_contribution [opCompraExemplo] [opVendaLucro]
    opVendaSemLastro rfl rfl rfl

/-- Helper: the realized-profit filter-and-sum equals the sum of the
per-row contribution over the whole list. -/
theorem lucro_filtrado_eq_soma_contribuicao (l : List Operacao) :
    ((l.filter (fun o => o.tipo_operacao = TipoOperacao.venda ∧
        o.lucro_prejuizo_na_op.isSome)).map
      (fun o => o.lucro_prejuizo_na_op.getD 0)).sum =
    (l.map contribuicaoLucro).sum := by
  induction l with
  | nil => rfl
  | cons o t ih =>
    rw [List.map_cons, List.sum_cons, List.filter_cons]
    by_cases h : o.tipo_operacao = TipoOperacao.venda ∧
        o.lucro_prejuizo_na_op.isSome
    · rw [if_pos (by simpa using h), List.map_cons, List.sum_cons, ih,
        contribuicaoLucro, if_pos h]
    · rw [if_neg (by simpa using h), ih, contribuicaoLucro, if_neg h, zero_add]

/-- Helper: a sum of an indicator over a list avoiding the marked symbol is
zero. -/
theorem soma_indicador_ausente (x : String) (c : ℚ) (l : List String)
    (hx : x ∉ l) :
    (l.map (fun s => if x = s then c else 0)).sum = 0 := by
  induction l with
  | nil => rfl
  | cons s t ih =>
    rw [List.map_cons, List.sum_cons, if_neg (by rintro rfl; exact hx (by simp)),
      zero_add]
    exact ih (fun h => hx (List.mem_cons_of_mem s h))

/-- Helper: summing an indicator over a duplicate-free list containing the
marked symbol yields the marked value. -/
theorem soma_indicador (x : String) (c : ℚ) (l : List String)
    (hnd : l.Nodup) (hx : x ∈ l) :
    (l.map (fun s => if x = s then c else 0)).sum = c := by
  induction l with
  | nil => cases hx
  | cons s t ih =>
    rw [List.map_cons, List.sum_cons]
    rcases List.mem_cons.mp hx with rfl | hxt
    · rw [if_pos rfl, soma_indicador_ausente x c t (List.nodup_cons.mp hnd).1,
        add_zero]
    · rw [if_neg, ih (List.nodup_cons.mp hnd).2 hxt, zero_add]
      rintro rfl
      exact (List.nodup_cons.mp hnd).1 hxt

/-- Helper: sums of pointwise additions split. -/
theorem soma_map_soma (A B : String → ℚ) (l : List String) :
    (l.map (fun s => A s + B s)).sum = (l.map A).sum + (l.map B).sum := by
  induction l with
  | nil => simp
  | cons s t ih =>
    rw [List.map_cons, List.sum_cons, ih, List.map_cons, List.sum_cons,
      List.map_cons, List.sum_cons]
    ring

/-- Helper: a per-row quantity summed asset by asset over a duplicate-free
list of symbols covering every row equals its sum over the whole list. -/
theorem particao_por_simbolo (f : Operacao → ℚ) (syms : List String) :
    ∀ ops : List Operacao, syms.Nodup → (∀ o ∈ ops, o.cripto ∈ syms) →
      (syms.map (fun s => ((opsDaCripto ops s).map f).sum)).sum =
        (ops.map f).sum := by
  intro ops
  induction ops with
  | nil =>
    intro _ _
    simp [opsDaCripto]
  | cons o t ih =>
    intro hnd hall
    have hsplit : ∀ s : String, ((opsDaCripto (o :: t) s).map f).sum =
        (if o.cripto = s then f o else 0) + ((opsDaCripto t s).map f).sum := by
      intro s
      rw [opsDaCripto, List.filter_cons]
      by_cases h : o.cripto = s
      · rw [if_pos (by simpa using h), List.map_cons, List.sum_cons, if_pos h,
          opsDaCripto]
      · rw [if_neg (by simpa using h), if_neg h, zero_add, opsDaCripto]
    calc (syms.map (fun s => ((opsDaCripto (o :: t) s).map f).sum)).sum
        = (syms.map (fun s =>
            (if o.cripto = s then f o else 0) +
              ((opsDaCripto t s).map f).sum)).sum := by
          exact congrArg List.sum (List.map_congr_left (fun s _ => hsplit s))
      _ = (syms.map (fun s => if o.cripto = s then f o else 0)).sum +
            (syms.map (fun s => ((opsDaCripto t s).map f).sum)).sum :=
          soma_map_soma _ _ syms
      _ = f o + (t.map f).sum := by
          rw [soma_indicador o.cripto (f o) syms hnd (hall o (by simp)),
            ih hnd (fun x hx => hall x (List.mem_cons_of_mem o hx))]
      _ = ((o :: t).map f).sum := by rw [List.map_cons, List.sum_cons]

/-- Helper: when every listed symbol has positive held quantity, the
realized-profit column of the aggregated output over that symbol list sums
to the per-symbol realized profits. -/
theorem filterMap_lucro_total (ops : List Operacao) :
    ∀ l : List String,
      (∀ s ∈ l, 0 < quantidadeAtual (opsDaCripto ops s)) →
      ((l.filterMap (fun s =>
          if 0 < quantidadeAtual (opsDaCripto ops s) then
            some ({ cripto := s,
                    quantidade := quantidadeAtual (opsDaCripto ops s),
                    custo_total := custoTotalAtualEstimado (opsDaCripto ops s),
                    custo_medio := custoMedio (opsDaCripto ops s),
                    lucro_realizado :=
                      lucroRealizadoDaCripto (opsDaCripto ops s) } : PosicaoAtivo)
          else none)).map (fun p => p.lucro_realizado)).sum =
      (l.map (fun s => lucroRealizadoDaCripto (opsDaCripto ops s))).sum := by
  intro l
  induction l with
  | nil => intro _; rfl
  | cons s t ih =>
    intro hall
    rw [List.filterMap_cons, if_pos (hall s (by simp)), List.map_cons,
      List.sum_cons, List.map_cons, List.sum_cons,
      ih (fun x hx => hall x (List.mem_cons_of_mem s hx))]

/-- Claim C7 (amended): when every asset appearing in the operation list has
positive held quantity, the wallet-level realized-profit rollup equals the
sum of the realized-profit column of the aggregated output; in general the
rollup sums over all Sells of the wallet, including those of assets absent
from the output. -/
theorem rollup_total_realized_pl (ops : List Operacao)
    (h : ∀ s ∈ simbolos ops, 0 < quantidadeAtual (opsDaCripto ops s)) :
    totalLucroRealizado ops =
      ((portfolioDetalhado ops).map (fun p => p.lucro_realizado)).sum := by
  have h1 : totalLucroRealizado ops = (ops.map contribuicaoLucro).sum :=
    lucro_filtrado_eq_soma_contribuicao ops
  have h2 : ((portfolioDetalhado ops).map (fun p => p.lucro_realizado)).sum =
      ((simbolos ops).map
        (fun s => lucroRealizadoDaCripto (opsDaCripto ops s))).sum := by
    rw [portfolioDetalhado]
    exact filterMap_lucro_total ops (simbolos ops) h
  have h3 : ∀ s : String, lucroRealizadoDaCripto (opsDaCripto ops s) =
      ((opsDaCripto ops s).map contribuicaoLucro).sum := by
    intro s
    exact lucro_filtrado_eq_soma_contribuicao (opsDaCripto ops s)
  rw [h1, h2, List.map_congr_left (fun s _ => h3 s),
    particao_por_simbolo contribuicaoLucro (simbolos ops) ops
      (simbolos_nodup ops) (fun o ho => mem_simbolos ops o ho)]

/-- Witness for C7 (amended): on the ledger holding only the example Buy the
rollup equals the single aggregated realized-profit entry. -/
theorem rollup_total_realized_pl_witness :
    totalLucroRealizado [opCompraExemplo] =
      ((portfolioDetalhado [opCompraExemplo]).map
        (fun p => p.lucro_realizado)).sum :=
  rollup_total_realized_pl [opCompraExemplo]
    (by
      intro s hs
      simp [simbolos, unicos, insereUnico, opCompraExemplo] at hs
      subst hs
      simp [quantidadeAtual, opsDaCripto, qtdComprada, qtdVendida,
        somaQuantidade, opCompraExemplo])

/-- Counterexample for C7 as stated: after a Buy of 1 BTC for 100 and a Sell
of the whole position for 150, the wallet-level rollup is 50 while the
aggregated output is empty, so the sum of its per-asset realized profits
is 0. -/
theorem rollup_total_realized_pl_cx :
    totalLucroRealizado [opCompraExemplo, opVendaLucro] = 50 ∧
    ((portfolioDetalhado [opCompraExemplo, opVendaLucro]).map
      (fun p => p.lucro_realizado)).sum = 0 ∧
    ¬ totalLucroRealizado [opCompraExemplo, opVendaLucro] =
      ((portfolioDetalhado [opCompraExemplo, opVendaLucro]).map
        (fun p => p.lucro_realizado)).sum := by
  refine ⟨?_, ?_, ?_⟩
  · simp [totalLucroRealizado, opCompraExemplo, opVendaLucro]
  · simp [portfolioDetalhado, simbolos, unicos, insereUnico, opsDaCripto,
      quantidadeAtual, qtdComprada, qtdVendida, somaQuantidade,
      opCompraExemplo, opVendaLucro]
  · simp [totalLucroRealizado, portfolioDetalhado, simbolos, unicos,
      insereUnico, opsDaCripto, quantidadeAtual, qtdComprada, qtdVendida,
      somaQuantidade, opCompraExemplo, opVendaLucro]

end CriptoFacil
